import Mathlib

/-!
Verification of the ShopManagement inventory/ledger core
(`core/database.py`) against its natural-language specification.

The SQLite tables are embedded as Lean lists of records; monetary REAL
columns become `ℚ`, INTEGER quantity columns become `ℤ`, nullable TEXT
columns become `Option String`.  Each mutating operation of the Python
module becomes a pure function from a database state to either an error
(`Except String`) or the new state.  `add_sale` is special: the Python
code commits the inserted Sale row before running the stock checks, so
its embedding returns the database state reached even when the call
fails, paired with the outcome.
-/

deriving instance DecidableEq for Except

namespace ShopManagement

/-- A row of the `products` table (id TEXT PRIMARY KEY, name, company,
cost_price REAL, quantity INTEGER, warehouse_quantity INTEGER,
store_quantity INTEGER).  `created_at` is ignored. -/
structure Product where
  id : String
  name : String
  company : String
  cost_price : ℚ
  quantity : ℤ
  warehouse_quantity : ℤ
  store_quantity : ℤ
  deriving Repr, DecidableEq

/-- A row of the `sales` table.  `customer_name` is nullable. -/
structure Sale where
  sale_type : String
  customer_name : Option String
  product_id : String
  product_name : String
  selling_price : ℚ
  cost_price : ℚ
  quantity : ℤ
  total : ℚ
  profit : ℚ
  paid_amount : ℚ
  due_amount : ℚ
  deriving Repr, DecidableEq

/-- A row of the `dues_received` table (`received_date` is ignored). -/
structure DuesReceived where
  customer_name : String
  amount_received : ℚ
  notes : String
  deriving Repr, DecidableEq

/-- The database state: the three tables the claims are about. -/
structure DB where
  products : List Product
  sales : List Sale
  dues_received : List DuesReceived
  deriving Repr, DecidableEq

/-- Python `str.strip()`: remove leading and trailing whitespace.
Defined structurally on the character list so that concrete instances
evaluate inside proofs. -/
def pyStrip (s : String) : String :=
  ⟨((s.data.dropWhile Char.isWhitespace).reverse.dropWhile
      Char.isWhitespace).reverse⟩

/-- `get_product_by_id`: `SELECT * FROM products WHERE id = ?` —
first row whose `id` column equals the argument exactly. -/
def get_product_by_id (db : DB) (product_id : String) : Option Product :=
  db.products.find? (fun p => p.id == product_id)

/-- `add_product`: validates, defaults omitted location quantities
(warehouse := quantity, store := 0), enforces the split invariant, and
inserts; a duplicate id surfaces as a storage error (PRIMARY KEY). -/
def add_product (db : DB) (product_id name company : String) (cost_price : ℚ)
    (quantity : ℤ) (warehouse_quantity store_quantity : Option ℤ) :
    Except String DB :=
  if pyStrip product_id = "" then
    .error "Product id is required and cannot be empty"
  else if cost_price < 0 ∨ quantity < 0 then
    .error "cost_price and quantity must be non-negative."
  else if pyStrip name = "" ∨ pyStrip company = "" then
    .error "Product name and company are required."
  else
    let wq := warehouse_quantity.getD quantity
    let sq := store_quantity.getD 0
    if wq < 0 ∨ sq < 0 then
      .error "warehouse_quantity and store_quantity must be non-negative."
    else if wq + sq ≠ quantity then
      .error "warehouse_quantity + store_quantity must equal total quantity"
    else if (db.products.find? (fun p => p.id == pyStrip product_id)).isSome then
      .error "UNIQUE constraint failed: products.id"
    else
      .ok { db with products := db.products ++
        [{ id := pyStrip product_id, name := pyStrip name, company := pyStrip company,
           cost_price := cost_price, quantity := quantity,
           warehouse_quantity := wq, store_quantity := sq }] }

/-- The row transformation of `update_product`'s UPDATE statement:
rows whose id matches get the new field values, others are unchanged. -/
def updRow (product_id name company : String) (cost_price : ℚ)
    (q wq sq : ℤ) (p : Product) : Product :=
  if p.id == product_id then
    { p with name := pyStrip name, company := pyStrip company,
             cost_price := cost_price, quantity := q,
             warehouse_quantity := wq, store_quantity := sq }
  else p

/-- `update_product`: validates price and names, loads the current row
(fails if absent), merges omitted quantity fields with the stored
values, re-validates the invariant, and updates every row whose id
matches (the id is a primary key, so at most one in practice). -/
def update_product (db : DB) (product_id name company : String) (cost_price : ℚ)
    (quantity warehouse_quantity store_quantity : Option ℤ) :
    Except String DB :=
  if cost_price < 0 then
    .error "cost_price must be non-negative."
  else if pyStrip name = "" ∨ pyStrip company = "" then
    .error "Product name and company are required."
  else
    match get_product_by_id db product_id with
    | none => .error ("Product with ID " ++ product_id ++ " not found")
    | some current =>
      let q := quantity.getD current.quantity
      let wq := warehouse_quantity.getD current.warehouse_quantity
      let sq := store_quantity.getD current.store_quantity
      if q < 0 ∨ wq < 0 ∨ sq < 0 then
        .error "All quantities must be non-negative."
      else if wq + sq ≠ q then
        .error "warehouse_quantity + store_quantity must equal total quantity"
      else
        .ok { db with
          products := db.products.map
            (updRow product_id name company cost_price q wq sq) }

/-- `transfer_inventory`: rejects non-positive quantity, bad or equal
locations, a missing product, and insufficient stock at the source;
otherwise moves `quantity` between the two location fields through
`update_product`, keeping the total. -/
def transfer_inventory (db : DB) (product_id from_location to_location : String)
    (quantity : ℤ) : Except String DB :=
  if quantity ≤ 0 then
    .error "Transfer quantity must be positive"
  else if (from_location ≠ "warehouse" ∧ from_location ≠ "store") ∨
          (to_location ≠ "warehouse" ∧ to_location ≠ "store") then
    .error "Locations must be warehouse or store"
  else if from_location = to_location then
    .error "Source and destination locations must be different"
  else
    match get_product_by_id db product_id with
    | none => .error ("Product with ID " ++ product_id ++ " not found")
    | some prod =>
      let available := if from_location = "warehouse"
        then prod.warehouse_quantity else prod.store_quantity
      if available < quantity then
        .error "Not enough stock at source location"
      else
        let new_warehouse_qty := if from_location = "warehouse"
          then prod.warehouse_quantity - quantity
          else prod.warehouse_quantity + quantity
        let new_store_qty := if from_location = "warehouse"
          then prod.store_quantity + quantity
          else prod.store_quantity - quantity
        update_product db product_id prod.name prod.company prod.cost_price
          (some prod.quantity) (some new_warehouse_qty) (some new_store_qty)

/-- The Sale row `add_sale` INSERTs: the computed
`total = selling_price * quantity`,
`profit = (selling_price - cost_price) * quantity` and
`due_amount = total - paid_amount` next to the given fields. -/
def mkSale (sale_type : String) (product_id product_name : String)
    (selling_price cost_price : ℚ) (quantity : ℤ) (paid_amount : ℚ)
    (customer_name : Option String) : Sale :=
  { sale_type := sale_type, customer_name := customer_name,
    product_id := product_id, product_name := product_name,
    selling_price := selling_price, cost_price := cost_price,
    quantity := quantity, total := selling_price * (quantity : ℚ),
    profit := (selling_price - cost_price) * (quantity : ℚ),
    paid_amount := paid_amount,
    due_amount := selling_price * (quantity : ℚ) - paid_amount }

/-- `add_sale`: computes total/profit/due, rejects overpayment before
any write, then INSERTs the Sale row and COMMITs; only afterwards does
it look the product up, check store stock, and deduct through
`update_product`.  The returned pair is (outcome, database state after
the call): on the failure paths after the insert the committed Sale row
stays in the state, exactly as in the Python code. -/
def add_sale (db : DB) (sale_type : String) (product_id product_name : String)
    (selling_price cost_price : ℚ) (quantity : ℤ) (paid_amount : ℚ)
    (customer_name : Option String) : Except String Unit × DB :=
  let total := selling_price * (quantity : ℚ)
  let due_amount := total - paid_amount
  if due_amount < 0 then
    (.error "Paid amount cannot exceed total amount", db)
  else
    let db1 := { db with sales := db.sales ++
      [mkSale sale_type product_id product_name selling_price cost_price
        quantity paid_amount customer_name] }
    match get_product_by_id db1 product_id with
    | none => (.error ("Product with ID " ++ product_id ++ " not found"), db1)
    | some prod =>
      if prod.store_quantity < quantity then
        (.error "Not enough stock in store", db1)
      else
        match update_product db1 product_id prod.name prod.company
            prod.cost_price (some (prod.quantity - quantity))
            (some prod.warehouse_quantity)
            (some (prod.store_quantity - quantity)) with
        | .error e => (.error e, db1)
        | .ok db2 => (.ok (), db2)

/-- `add_dues_payment`: rejects non-positive amount and blank customer
name, then appends a `dues_received` row with the trimmed name. -/
def add_dues_payment (db : DB) (customer_name : String) (amount : ℚ)
    (notes : String) : Except String DB :=
  if amount ≤ 0 then
    .error "Payment amount must be positive"
  else if pyStrip customer_name = "" then
    .error "Customer name is required"
  else
    .ok { db with dues_received := db.dues_received ++
      [{ customer_name := pyStrip customer_name, amount_received := amount,
         notes := pyStrip notes }] }

/-- The wholesale-dues sum of `get_customer_dues_by_name`:
`SUM(due_amount) WHERE sale_type = wholesale AND customer_name = ?
AND due_amount > 0`, with `COALESCE(..., 0)`. -/
def wholesaleDuesSum (db : DB) (customer_name : String) : ℚ :=
  ((db.sales.filter (fun s =>
      s.sale_type == "wholesale" && s.customer_name == some customer_name &&
      decide (0 < s.due_amount))).map (fun s => s.due_amount)).sum

/-- The received-payments sum of `get_customer_dues_by_name`:
`SUM(amount_received) WHERE customer_name = ?`, with `COALESCE(..., 0)`. -/
def receivedSum (db : DB) (customer_name : String) : ℚ :=
  ((db.dues_received.filter (fun r => r.customer_name == customer_name)).map
    (fun r => r.amount_received)).sum

/-- `get_customer_dues_by_name`: the two sums above combined as
`max(0, total_dues - total_received)`. -/
def get_customer_dues_by_name (db : DB) (customer_name : String) : ℚ :=
  max 0 (wholesaleDuesSum db customer_name - receivedSum db customer_name)

/-! ### Schema/Migration Manager (`_add_warehouse_store_columns`)

For the migration claims only the `products` table matters, and of it
only the three quantity columns.  `hasWScols` records whether the
`warehouse_quantity`/`store_quantity` columns exist (PRAGMA
table_info); when they are added via ALTER TABLE every existing row
gets the column DEFAULT 0. -/

/-- The quantity columns of a `products` row as the migration sees it. -/
structure MigRow where
  quantity : ℤ
  warehouse_quantity : ℤ
  store_quantity : ℤ
  deriving Repr, DecidableEq

/-- Migration-level view of the `products` table: whether the two
location columns exist, and the rows. -/
structure MigDB where
  hasWScols : Bool
  rows : List MigRow
  deriving Repr, DecidableEq

/-- The 50/50 backfill UPDATE: rows with both location quantities zero
and positive total get `warehouse := quantity / 2` and
`store := quantity / 2 + quantity % 2` (SQLite integer division). -/
def backfillRow (r : MigRow) : MigRow :=
  if r.warehouse_quantity = 0 ∧ r.store_quantity = 0 ∧ 0 < r.quantity then
    { r with warehouse_quantity := r.quantity / 2,
             store_quantity := r.quantity / 2 + r.quantity % 2 }
  else r

/-- `_add_warehouse_store_columns`: reads the column list (PRAGMA),
adds the missing columns with DEFAULT 0, and then runs the backfill —
but guarded by the column list read BEFORE the ALTERs: the backfill
only runs when the columns already existed at the start of the call. -/
def _add_warehouse_store_columns (db : MigDB) : MigDB :=
  let columns_had_ws := db.hasWScols
  let db1 := if columns_had_ws then db
    else { hasWScols := true,
           rows := db.rows.map (fun r =>
             { r with warehouse_quantity := 0, store_quantity := 0 }) }
  if columns_had_ws then
    { db1 with rows := db1.rows.map backfillRow }
  else
    db1

/-! ### Well-formedness predicates -/

/-- The numeric product invariant from the spec: the split sums to the
total and all three quantities are non-negative. -/
def ProductInv (p : Product) : Prop :=
  p.warehouse_quantity + p.store_quantity = p.quantity ∧
  0 ≤ p.quantity ∧ 0 ≤ p.warehouse_quantity ∧ 0 ≤ p.store_quantity

instance (p : Product) : Decidable (ProductInv p) := by
  unfold ProductInv; infer_instance

/-- Full well-formedness of a stored product row, as guaranteed for
every row written through `add_product`/`update_product`: trimmed
non-empty name and company, non-negative price, and `ProductInv`. -/
def ProductWF (p : Product) : Prop :=
  pyStrip p.name = p.name ∧ p.name ≠ "" ∧
  pyStrip p.company = p.company ∧ p.company ≠ "" ∧
  0 ≤ p.cost_price ∧ ProductInv p

instance (p : Product) : Decidable (ProductWF p) := by
  unfold ProductWF; infer_instance

/-- All product rows of the database satisfy the numeric invariant. -/
def DBProductsInv (db : DB) : Prop :=
  ∀ p ∈ db.products, ProductInv p

instance (db : DB) : Decidable (DBProductsInv db) :=
  List.decidableBAll _ _

/-! ### Helper lemmas -/

theorem find?_map_comm {α : Type} (g : α → α) (q : α → Bool)
    (hg : ∀ a, q (g a) = q a) (l : List α) :
    (l.map g).find? q = (l.find? q).map g := by
  induction l with
  | nil => rfl
  | cons a t ih =>
    rcases hqa : q a with _ | _
    · simp [List.find?, hg, hqa, ih]
    · simp [List.find?, hg, hqa]

theorem updRow_id (pid n c : String) (cp : ℚ) (q wq sq : ℤ) (p : Product) :
    (updRow pid n c cp q wq sq p).id = p.id := by
  unfold updRow; split <;> rfl

/-- Success characterisation of `update_product`: the row existed, every
validation passed on the merged values, and the new state is the mapped
product list with everything else untouched. -/
theorem update_product_ok_spec {db : DB} {pid n c : String} {cp : ℚ}
    {q wq sq : Option ℤ} {db' : DB}
    (h : update_product db pid n c cp q wq sq = .ok db') :
    ∃ cur, get_product_by_id db pid = some cur ∧
      0 ≤ cp ∧ pyStrip n ≠ "" ∧ pyStrip c ≠ "" ∧
      0 ≤ q.getD cur.quantity ∧
      0 ≤ wq.getD cur.warehouse_quantity ∧
      0 ≤ sq.getD cur.store_quantity ∧
      wq.getD cur.warehouse_quantity + sq.getD cur.store_quantity =
        q.getD cur.quantity ∧
      db' = { db with
        products := db.products.map
          (updRow pid n c cp (q.getD cur.quantity)
            (wq.getD cur.warehouse_quantity) (sq.getD cur.store_quantity)) } := by
  unfold update_product at h
  split at h
  · simp at h
  next hcp =>
  split at h
  · simp at h
  next hnames =>
  split at h
  · simp at h
  next cur hcur =>
  dsimp only at h
  split at h
  · simp at h
  next hneg =>
  split at h
  · simp at h
  next hsum =>
  cases h
  push_neg at hcp hnames hneg
  exact ⟨cur, hcur, hcp, hnames.1, hnames.2,
    hneg.1, hneg.2.1, hneg.2.2, not_ne_iff.mp hsum, rfl⟩

/-- After a successful `update_product`, looking the product up returns
the row with the written values. -/
theorem update_product_ok_lookup {db : DB} {pid n c : String} {cp : ℚ}
    {q wq sq : Option ℤ} {db' : DB} {cur : Product}
    (hcur : get_product_by_id db pid = some cur)
    (h : update_product db pid n c cp q wq sq = .ok db') :
    get_product_by_id db' pid =
      some { cur with name := pyStrip n, company := pyStrip c,
                      cost_price := cp, quantity := q.getD cur.quantity,
                      warehouse_quantity := wq.getD cur.warehouse_quantity,
                      store_quantity := sq.getD cur.store_quantity } := by
  obtain ⟨cur', hcur', -, -, -, -, -, -, -, rfl⟩ := update_product_ok_spec h
  rw [hcur] at hcur'
  cases hcur'
  have hcur2 : db.products.find? (fun p => p.id == pid) = some cur := hcur
  have hpred : (cur.id == pid) = true := by simpa using List.find?_some hcur2
  unfold get_product_by_id at hcur ⊢
  rw [find?_map_comm _ _ (fun a => by rw [updRow_id]), hcur]
  simp [updRow, hpred]

/-- `update_product` never touches the sales or dues tables. -/
theorem update_product_ok_frame {db : DB} {pid n c : String} {cp : ℚ}
    {q wq sq : Option ℤ} {db' : DB}
    (h : update_product db pid n c cp q wq sq = .ok db') :
    db'.sales = db.sales ∧ db'.dues_received = db.dues_received := by
  obtain ⟨cur, -, -, -, -, -, -, -, -, rfl⟩ := update_product_ok_spec h
  exact ⟨rfl, rfl⟩

/-- A successful `update_product` preserves the numeric invariant over
all product rows. -/
theorem update_product_ok_inv {db : DB} {pid n c : String} {cp : ℚ}
    {q wq sq : Option ℤ} {db' : DB} (hinv : DBProductsInv db)
    (h : update_product db pid n c cp q wq sq = .ok db') :
    DBProductsInv db' := by
  obtain ⟨cur, hcur, -, -, -, hq, hwq, hsq, hsum, rfl⟩ := update_product_ok_spec h
  intro p hp
  rcases List.mem_map.mp hp with ⟨p0, hp0, rfl⟩
  unfold updRow
  split
  · exact ⟨hsum, hq, hwq, hsq⟩
  · exact hinv p0 hp0

/-- Success characterisation of `add_sale`: the due was non-negative,
the product was found with sufficient store stock, and the final state
is a successful `update_product` applied to the state with the Sale row
already committed. -/
theorem add_sale_ok_spec {db : DB} {st pid pn : String} {sp cp : ℚ} {q : ℤ}
    {pa : ℚ} {cn : Option String} {db' : DB}
    (h : add_sale db st pid pn sp cp q pa cn = (.ok (), db')) :
    0 ≤ sp * (q : ℚ) - pa ∧
    ∃ prod, get_product_by_id db pid = some prod ∧ q ≤ prod.store_quantity ∧
      update_product { db with sales := db.sales ++ [mkSale st pid pn sp cp q pa cn] }
        pid prod.name prod.company prod.cost_price
        (some (prod.quantity - q)) (some prod.warehouse_quantity)
        (some (prod.store_quantity - q)) = .ok db' := by
  unfold add_sale at h
  dsimp only at h
  split at h
  · simp at h
  next hdue =>
  split at h
  · simp at h
  next prod hprod =>
  split at h
  · simp at h
  next hstock =>
  split at h
  · simp at h
  next db2 hupd =>
  obtain ⟨-, rfl⟩ := Prod.mk.injEq .. |>.mp h
  exact ⟨not_lt.mp hdue, prod, hprod, not_lt.mp hstock, hupd⟩

/-- Whatever the outcome, `add_sale` leaves `dues_received` alone and
either leaves the sales table alone (overpayment rejection) or appends
exactly the computed Sale row — also on the post-commit failure paths. -/
theorem add_sale_snd_frame (db : DB) (st pid pn : String) (sp cp : ℚ) (q : ℤ)
    (pa : ℚ) (cn : Option String) :
    (add_sale db st pid pn sp cp q pa cn).2.dues_received = db.dues_received ∧
    ((add_sale db st pid pn sp cp q pa cn).2.sales = db.sales ∨
      (add_sale db st pid pn sp cp q pa cn).2.sales =
        db.sales ++ [mkSale st pid pn sp cp q pa cn]) := by
  unfold add_sale
  dsimp only
  split
  · exact ⟨rfl, .inl rfl⟩
  · split
    · exact ⟨rfl, .inr rfl⟩
    · split
      · exact ⟨rfl, .inr rfl⟩
      · split
        · exact ⟨rfl, .inr rfl⟩
        next db2 hupd =>
          have hf := update_product_ok_frame hupd
          exact ⟨hf.2, .inr hf.1⟩

/-- Success characterisation of `add_product`: every validation passed
and the new row is appended. -/
theorem add_product_ok_spec {db : DB} {pid n c : String} {cp : ℚ} {q : ℤ}
    {wq sq : Option ℤ} {db' : DB}
    (h : add_product db pid n c cp q wq sq = .ok db') :
    0 ≤ cp ∧ 0 ≤ q ∧ 0 ≤ wq.getD q ∧ 0 ≤ sq.getD 0 ∧ wq.getD q + sq.getD 0 = q ∧
    db' = { db with products := db.products ++
      [{ id := pyStrip pid, name := pyStrip n, company := pyStrip c,
         cost_price := cp, quantity := q,
         warehouse_quantity := wq.getD q, store_quantity := sq.getD 0 }] } := by
  unfold add_product at h
  split at h
  · simp at h
  split at h
  · simp at h
  next hcpq =>
  split at h
  · simp at h
  dsimp only at h
  split at h
  · simp at h
  next hneg =>
  split at h
  · simp at h
  next hsum =>
  split at h
  · simp at h
  cases h
  push_neg at hcpq hneg
  exact ⟨hcpq.1, hcpq.2, hneg.1, hneg.2, not_ne_iff.mp hsum, rfl⟩

/-- `update_product` succeeds whenever the row exists and the supplied
values pass every validation. -/
theorem update_product_ok_of_valid {db : DB} {pid n c : String} {cp : ℚ}
    {q wq sq : ℤ} {cur : Product}
    (hcur : get_product_by_id db pid = some cur)
    (hcp : 0 ≤ cp) (hn : pyStrip n ≠ "") (hc : pyStrip c ≠ "")
    (hq : 0 ≤ q) (hwq : 0 ≤ wq) (hsq : 0 ≤ sq) (hsum : wq + sq = q) :
    update_product db pid n c cp (some q) (some wq) (some sq) =
      .ok { db with products := db.products.map (updRow pid n c cp q wq sq) } := by
  unfold update_product
  rw [if_neg (not_lt.mpr hcp), if_neg (by push_neg; exact ⟨hn, hc⟩), hcur]
  simp only [Option.getD_some]
  rw [if_neg (by push_neg; exact ⟨hq, hwq, hsq⟩),
    if_neg (not_ne_iff.mpr hsum)]

/-! ### Claim theorems -/

/-- **C2.** Starting from a state in which every product row satisfies
the invariant, any successful `add_product`, `update_product`,
`transfer_inventory`, or `add_sale` stock deduction leaves every product
row with `warehouse_quantity + store_quantity = quantity` and all three
quantities non-negative; and a write whose values would violate the
invariant is rejected (never returns a new state). -/
theorem claim_C2_quantity_invariant (db : DB) (h : DBProductsInv db) :
    (∀ pid n c cp q wq sq db', add_product db pid n c cp q wq sq = .ok db' →
      DBProductsInv db') ∧
    (∀ pid n c cp q wq sq db', update_product db pid n c cp q wq sq = .ok db' →
      DBProductsInv db') ∧
    (∀ pid f t q db', transfer_inventory db pid f t q = .ok db' →
      DBProductsInv db') ∧
    (∀ st pid pn sp cp q pa cn db',
      add_sale db st pid pn sp cp q pa cn = (.ok (), db') → DBProductsInv db') ∧
    (∀ pid n c cp q wq sq db', wq + sq ≠ q →
      add_product db pid n c cp q (some wq) (some sq) ≠ .ok db') ∧
    (∀ pid n c cp q wq sq db', wq + sq ≠ q →
      update_product db pid n c cp (some q) (some wq) (some sq) ≠ .ok db') := by
  refine ⟨?_, ?_, ?_, ?_, ?_, ?_⟩
  · intro pid n c cp q wq sq db' hok
    obtain ⟨hcp, hq, hwq, hsq, hsum, rfl⟩ := add_product_ok_spec hok
    intro p hp
    rcases List.mem_append.mp hp with hp | hp
    · exact h p hp
    · rcases List.mem_singleton.mp hp with rfl
      exact ⟨hsum, hq, hwq, hsq⟩
  · intro pid n c cp q wq sq db' hok
    exact update_product_ok_inv h hok
  · intro pid f t q db' hok
    unfold transfer_inventory at hok
    split at hok
    · simp at hok
    split at hok
    · simp at hok
    split at hok
    · simp at hok
    split at hok
    · simp at hok
    next prod hprod =>
    dsimp only at hok
    split at hok
    · split at hok
      · simp at hok
      · exact update_product_ok_inv h hok
    · split at hok
      · simp at hok
      · exact update_product_ok_inv h hok
  · intro st pid pn sp cp q pa cn db' hok
    obtain ⟨-, prod, -, -, hupd⟩ := add_sale_ok_spec hok
    refine update_product_ok_inv ?_ hupd
    exact fun p hp => h p hp
  · intro pid n c cp q wq sq db' hne hok
    obtain ⟨-, -, -, -, hsum, -⟩ := add_product_ok_spec hok
    simp only [Option.getD_some] at hsum
    exact hne hsum
  · intro pid n c cp q wq sq db' hne hok
    obtain ⟨cur, -, -, -, -, -, -, -, hsum, -⟩ := update_product_ok_spec hok
    simp only [Option.getD_some] at hsum
    exact hne hsum

/-- Witness for C2: a concrete state satisfying the invariant, and the
invariant after a concrete successful sale deduction from it. -/
theorem claim_C2_quantity_invariant_witness :
    DBProductsInv ⟨[⟨"p1", "Widget", "Acme", 6, 20, 15, 5⟩], [], []⟩ ∧
    DBProductsInv ⟨[⟨"p1", "Widget", "Acme", 6, 17, 15, 2⟩],
      [⟨"retail", none, "p1", "Widget", 10, 6, 3, 30, 12, 30, 0⟩], []⟩ :=
  ⟨by decide,
   (claim_C2_quantity_invariant ⟨[⟨"p1", "Widget", "Acme", 6, 20, 15, 5⟩], [], []⟩
       (by decide)).2.2.2.1
     "retail" "p1" "Widget" 10 6 3 30 none
     ⟨[⟨"p1", "Widget", "Acme", 6, 17, 15, 2⟩],
       [⟨"retail", none, "p1", "Widget", 10, 6, 3, 30, 12, 30, 0⟩], []⟩
     (by norm_num [add_sale, mkSale, get_product_by_id, update_product,
           updRow, pyStrip]
         decide)⟩

/-- **C3.** A successful `add_sale` persists exactly one Sale row, whose
`total`, `profit` and `due_amount` satisfy the documented formulas with
`due_amount ≥ 0`; a call with `paid_amount > total` is rejected with the
state completely unchanged. -/
theorem claim_C3_sale_arithmetic (db : DB) (st pid pn : String)
    (sp cp : ℚ) (q : ℤ) (pa : ℚ) (cn : Option String) :
    (∀ db', add_sale db st pid pn sp cp q pa cn = (.ok (), db') →
      ∃ s, db'.sales = db.sales ++ [s] ∧
        s.total = sp * (q : ℚ) ∧
        s.profit = (sp - cp) * (q : ℚ) ∧
        s.due_amount = s.total - s.paid_amount ∧
        s.paid_amount = pa ∧ 0 ≤ s.due_amount) ∧
    (sp * (q : ℚ) < pa →
      add_sale db st pid pn sp cp q pa cn =
        (.error "Paid amount cannot exceed total amount", db)) := by
  constructor
  · intro db' h
    obtain ⟨hdue, prod, hprod, hstock, hupd⟩ := add_sale_ok_spec h
    refine ⟨mkSale st pid pn sp cp q pa cn, ?_, rfl, rfl, rfl, rfl, hdue⟩
    rw [(update_product_ok_frame hupd).1]
  · intro hlt
    unfold add_sale
    dsimp only
    rw [if_pos (by linarith)]

/-- Witness for C3: the claim instantiated at a concrete successful sale
(3 units at price 10, cost 6, fully paid). -/
theorem claim_C3_sale_arithmetic_witness :
    ∃ s, (⟨[⟨"p1", "Widget", "Acme", 6, 17, 15, 2⟩],
        [⟨"retail", none, "p1", "Widget", 10, 6, 3, 30, 12, 30, 0⟩], []⟩ : DB).sales =
        ([] : List Sale) ++ [s] ∧
      s.total = 10 * ((3 : ℤ) : ℚ) ∧
      s.profit = (10 - 6) * ((3 : ℤ) : ℚ) ∧
      s.due_amount = s.total - s.paid_amount ∧
      s.paid_amount = 30 ∧ 0 ≤ s.due_amount :=
  (claim_C3_sale_arithmetic ⟨[⟨"p1", "Widget", "Acme", 6, 20, 15, 5⟩], [], []⟩
      "retail" "p1" "Widget" 10 6 3 30 none).1
    ⟨[⟨"p1", "Widget", "Acme", 6, 17, 15, 2⟩],
      [⟨"retail", none, "p1", "Widget", 10, 6, 3, 30, 12, 30, 0⟩], []⟩
    (by norm_num [add_sale, mkSale, get_product_by_id, update_product,
          updRow, pyStrip]
        decide)

/-- **C5.** A successful `transfer_inventory` conserves the product's
total quantity, moves exactly `quantity` from the source location field
to the destination location field, and leaves name, company and
cost_price unchanged (for a stored row, whose text fields are already
stripped). -/
theorem claim_C5_transfer_conserves_total (db : DB) (pid f t : String) (q : ℤ)
    (p : Product) (db' : DB)
    (hp : get_product_by_id db pid = some p)
    (hname : pyStrip p.name = p.name) (hcomp : pyStrip p.company = p.company)
    (h : transfer_inventory db pid f t q = .ok db') :
    ∃ p', get_product_by_id db' pid = some p' ∧
      p'.quantity = p.quantity ∧ p'.name = p.name ∧ p'.company = p.company ∧
      p'.cost_price = p.cost_price ∧
      ((f = "warehouse" ∧ t = "store" ∧
        p'.warehouse_quantity = p.warehouse_quantity - q ∧
        p'.store_quantity = p.store_quantity + q) ∨
       (f = "store" ∧ t = "warehouse" ∧
        p'.warehouse_quantity = p.warehouse_quantity + q ∧
        p'.store_quantity = p.store_quantity - q)) := by
  unfold transfer_inventory at h
  split at h
  · simp at h
  next hqpos =>
  split at h
  · simp at h
  next hloc =>
  split at h
  · simp at h
  next hne =>
  split at h
  · simp at h
  next prod hprod =>
  rw [hp] at hprod
  injection hprod with hprod
  subst hprod
  push_neg at hloc
  dsimp only at h
  by_cases hf : f = "warehouse"
  · subst hf
    have ht : t = "store" := hloc.2 (fun he => hne he.symm)
    subst ht
    simp only [reduceIte] at h
    split at h
    · simp at h
    have hlk := update_product_ok_lookup hp h
    refine ⟨_, hlk, rfl, hname, hcomp, rfl, .inl ⟨rfl, rfl, rfl, rfl⟩⟩
  · have hf2 : f = "store" := hloc.1 hf
    subst hf2
    have ht : t = "warehouse" := by
      by_contra hcon
      exact hne (hloc.2 hcon).symm
    subst ht
    simp only [String.reduceEq, reduceIte] at h
    split at h
    · simp at h
    have hlk := update_product_ok_lookup hp h
    exact ⟨_, hlk, rfl, hname, hcomp, rfl, .inr ⟨rfl, rfl, rfl, rfl⟩⟩

/-- Witness for C5: transferring 5 units warehouse→store on a concrete
product with split 15/5 and total 20. -/
theorem claim_C5_transfer_conserves_total_witness :
    ∃ p', get_product_by_id
        ⟨[⟨"p1", "Widget", "Acme", 6, 20, 10, 10⟩], [], []⟩ "p1" = some p' ∧
      p'.quantity = 20 ∧ p'.name = "Widget" ∧ p'.company = "Acme" ∧
      p'.cost_price = 6 ∧
      ((("warehouse" : String) = "warehouse" ∧ ("store" : String) = "store" ∧
        p'.warehouse_quantity = 15 - 5 ∧ p'.store_quantity = 5 + 5) ∨
       (("warehouse" : String) = "store" ∧ ("store" : String) = "warehouse" ∧
        p'.warehouse_quantity = 15 + 5 ∧ p'.store_quantity = 5 - 5)) :=
  claim_C5_transfer_conserves_total
    ⟨[⟨"p1", "Widget", "Acme", 6, 20, 15, 5⟩], [], []⟩ "p1" "warehouse" "store" 5
    ⟨"p1", "Widget", "Acme", 6, 20, 15, 5⟩
    ⟨[⟨"p1", "Widget", "Acme", 6, 20, 10, 10⟩], [], []⟩
    (by decide) (by decide) (by decide)
    (by norm_num [transfer_inventory, get_product_by_id, update_product,
          updRow, pyStrip]
        decide)

/-- **C6.** A successful `add_sale` of `quantity` units deducts exactly
`quantity` from the product's `store_quantity` and from its total
`quantity`, and leaves `warehouse_quantity` untouched. -/
theorem claim_C6_sale_deducts_store_only (db : DB) (st pid pn : String)
    (sp cp : ℚ) (q : ℤ) (pa : ℚ) (cn : Option String) (p : Product) (db' : DB)
    (hp : get_product_by_id db pid = some p)
    (h : add_sale db st pid pn sp cp q pa cn = (.ok (), db')) :
    ∃ p', get_product_by_id db' pid = some p' ∧
      p'.store_quantity = p.store_quantity - q ∧
      p'.quantity = p.quantity - q ∧
      p'.warehouse_quantity = p.warehouse_quantity := by
  obtain ⟨-, prod, hprod, -, hupd⟩ := add_sale_ok_spec h
  rw [hp] at hprod
  injection hprod with hprod
  subst hprod
  have hp1 : get_product_by_id
      { db with sales := db.sales ++ [mkSale st pid pn sp cp q pa cn] } pid =
      some p := hp
  have hlk := update_product_ok_lookup hp1 hupd
  exact ⟨_, hlk, rfl, rfl, rfl⟩

/-- Witness for C6: selling 3 units from a product with store stock 5
(warehouse 15, total 20). -/
theorem claim_C6_sale_deducts_store_only_witness :
    ∃ p', get_product_by_id ⟨[⟨"p1", "Widget", "Acme", 6, 17, 15, 2⟩],
        [⟨"retail", none, "p1", "Widget", 10, 6, 3, 30, 12, 30, 0⟩], []⟩ "p1" =
        some p' ∧
      p'.store_quantity = 5 - 3 ∧ p'.quantity = 20 - 3 ∧
      p'.warehouse_quantity = 15 :=
  claim_C6_sale_deducts_store_only
    ⟨[⟨"p1", "Widget", "Acme", 6, 20, 15, 5⟩], [], []⟩
    "retail" "p1" "Widget" 10 6 3 30 none
    ⟨"p1", "Widget", "Acme", 6, 20, 15, 5⟩
    ⟨[⟨"p1", "Widget", "Acme", 6, 17, 15, 2⟩],
      [⟨"retail", none, "p1", "Widget", 10, 6, 3, 30, 12, 30, 0⟩], []⟩
    (by decide)
    (by norm_num [add_sale, mkSale, get_product_by_id, update_product,
          updRow, pyStrip]
        decide)

/-- **C8.** `update_product` fails when the product does not exist; an
update with all quantity arguments omitted writes the currently stored
quantity values (not zero); and the invariant is re-validated against
the merged values: if they violate it the update is rejected. -/
theorem claim_C8_update_partial_merge (db : DB) (pid n c : String) (cp : ℚ) :
    (get_product_by_id db pid = none →
      ∀ q wq sq, ∃ e, update_product db pid n c cp q wq sq = .error e) ∧
    (∀ cur db', get_product_by_id db pid = some cur →
      update_product db pid n c cp none none none = .ok db' →
      ∃ p', get_product_by_id db' pid = some p' ∧
        p'.quantity = cur.quantity ∧
        p'.warehouse_quantity = cur.warehouse_quantity ∧
        p'.store_quantity = cur.store_quantity) ∧
    (∀ cur q wq sq db', get_product_by_id db pid = some cur →
      wq.getD cur.warehouse_quantity + sq.getD cur.store_quantity ≠
        q.getD cur.quantity →
      update_product db pid n c cp q wq sq ≠ .ok db') := by
  refine ⟨?_, ?_, ?_⟩
  · intro hnone q wq sq
    cases hup : update_product db pid n c cp q wq sq with
    | error e => exact ⟨e, rfl⟩
    | ok db' =>
      obtain ⟨cur, hcur, -⟩ := update_product_ok_spec hup
      rw [hnone] at hcur
      cases hcur
  · intro cur db' hcur hok
    have hlk := update_product_ok_lookup hcur hok
    exact ⟨_, hlk, rfl, rfl, rfl⟩
  · intro cur q wq sq db' hcur hne hok
    obtain ⟨cur2, hcur2, -, -, -, -, -, -, hsum, -⟩ := update_product_ok_spec hok
    rw [hcur] at hcur2
    injection hcur2 with hcur2
    subst hcur2
    exact hne hsum

/-- Witness for C8: a price-only update on a concrete product keeps the
stored quantities 20/15/5. -/
theorem claim_C8_update_partial_merge_witness :
    ∃ p', get_product_by_id
        ⟨[⟨"p1", "Widget", "Acme", 9, 20, 15, 5⟩], [], []⟩ "p1" = some p' ∧
      p'.quantity = 20 ∧ p'.warehouse_quantity = 15 ∧ p'.store_quantity = 5 :=
  (claim_C8_update_partial_merge
      ⟨[⟨"p1", "Widget", "Acme", 6, 20, 15, 5⟩], [], []⟩
      "p1" "Widget" "Acme" 9).2.1
    ⟨"p1", "Widget", "Acme", 6, 20, 15, 5⟩
    ⟨[⟨"p1", "Widget", "Acme", 9, 20, 15, 5⟩], [], []⟩
    (by decide)
    (by norm_num [update_product, get_product_by_id, updRow, pyStrip]
        decide)

/-- **C7.** `get_customer_dues_by_name X` is
`max(0, wholesale dues sum for X - received sum for X)`; it is never
negative, monotonically non-increasing under successful
`add_dues_payment` calls for `X`, and unaffected by retail sales. -/
theorem claim_C7_dues_derived (db : DB) (X : String) :
    get_customer_dues_by_name db X =
      max 0 (wholesaleDuesSum db X - receivedSum db X) ∧
    0 ≤ get_customer_dues_by_name db X ∧
    (∀ a notes db', add_dues_payment db X a notes = .ok db' →
      get_customer_dues_by_name db' X ≤ get_customer_dues_by_name db X) ∧
    (∀ pid pn sp cp q pa cn,
      get_customer_dues_by_name
          ((add_sale db "retail" pid pn sp cp q pa cn).2) X =
        get_customer_dues_by_name db X) := by
  refine ⟨rfl, le_max_left 0 _, ?_, ?_⟩
  · intro a notes db' hok
    unfold add_dues_payment at hok
    split at hok
    · simp at hok
    next ha =>
    split at hok
    · simp at hok
    cases hok
    push_neg at ha
    unfold get_customer_dues_by_name receivedSum wholesaleDuesSum
    rw [List.filter_append, List.map_append, List.sum_append]
    refine max_le_max le_rfl ?_
    have hnn : 0 ≤ ((List.filter (fun r => r.customer_name == X)
        [(⟨pyStrip X, a, pyStrip notes⟩ : DuesReceived)]).map
          (fun r => r.amount_received)).sum := by
      rcases hx : ((pyStrip X : String) == X) with _ | _
      · simp [List.filter_cons, hx]
      · simp [List.filter_cons, hx]
        linarith
    linarith
  · intro pid pn sp cp q pa cn
    obtain ⟨hd, hs⟩ := add_sale_snd_frame db "retail" pid pn sp cp q pa cn
    unfold get_customer_dues_by_name receivedSum wholesaleDuesSum
    rw [hd]
    rcases hs with hs | hs <;> rw [hs]
    rw [List.filter_append, List.map_append, List.sum_append]
    simp [List.filter_cons, mkSale]

/-- Witness for C7: the wholesale sale to Ali (total 100, paid 40, due
60), then a payment of 60 — the outstanding due does not increase. -/
theorem claim_C7_dues_derived_witness :
    get_customer_dues_by_name
      ⟨[], [⟨"wholesale", some "Ali", "p1", "Widget", 100, 50, 1, 100, 50, 40, 60⟩],
        [⟨"Ali", 60, ""⟩]⟩ "Ali" ≤
    get_customer_dues_by_name
      ⟨[], [⟨"wholesale", some "Ali", "p1", "Widget", 100, 50, 1, 100, 50, 40, 60⟩],
        []⟩ "Ali" :=
  (claim_C7_dues_derived
      ⟨[], [⟨"wholesale", some "Ali", "p1", "Widget", 100, 50, 1, 100, 50, 40, 60⟩],
        []⟩ "Ali").2.2.1 60 ""
    ⟨[], [⟨"wholesale", some "Ali", "p1", "Widget", 100, 50, 1, 100, 50, 40, 60⟩],
      [⟨"Ali", 60, ""⟩]⟩
    (by norm_num [add_dues_payment, pyStrip]
        decide)

/-- **C9 counterexample.** `add_sale` performs no customer-name check:
a wholesale sale with `customer_name = none` succeeds, and the persisted
Sale row is a wholesale row with a NULL customer name — refuting the
claim that such a sale is not accepted by `add_sale`. -/
theorem claim_C9_wholesale_null_customer_counterexample :
    add_sale ⟨[⟨"p1", "Widget", "Acme", 6, 20, 15, 5⟩], [], []⟩
        "wholesale" "p1" "Widget" 10 6 3 30 none =
      (.ok (), ⟨[⟨"p1", "Widget", "Acme", 6, 17, 15, 2⟩],
        [⟨"wholesale", none, "p1", "Widget", 10, 6, 3, 30, 12, 30, 0⟩], []⟩) := by
  norm_num [add_sale, mkSale, get_product_by_id, update_product, updRow, pyStrip]
  decide

/-- **C9 as amended.** `add_sale` does not validate `customer_name`:
whenever the overpayment check passes, a wholesale call with
`customer_name = none` appends (and commits) a Sale row with sale_type
wholesale and a NULL customer name, whatever the final outcome.
Requiring a customer for wholesale is left to the calling UI. -/
theorem claim_C9_wholesale_null_customer_amended (db : DB) (pid pn : String)
    (sp cp : ℚ) (q : ℤ) (pa : ℚ)
    (h : 0 ≤ sp * (q : ℚ) - pa) :
    ∃ s, (add_sale db "wholesale" pid pn sp cp q pa none).2.sales =
        db.sales ++ [s] ∧
      s.sale_type = "wholesale" ∧ s.customer_name = none := by
  unfold add_sale
  dsimp only
  rw [if_neg (not_lt.mpr h)]
  split
  · exact ⟨_, rfl, rfl, rfl⟩
  next prod hprod =>
  split
  · exact ⟨_, rfl, rfl, rfl⟩
  split
  · exact ⟨_, rfl, rfl, rfl⟩
  next db2 hupd =>
  refine ⟨mkSale "wholesale" pid pn sp cp q pa none, ?_, rfl, rfl⟩
  exact (update_product_ok_frame hupd).1

/-- Witness for C9 as amended: the concrete wholesale sale with a NULL
customer from the counterexample state. -/
theorem claim_C9_wholesale_null_customer_amended_witness :
    ∃ s, (add_sale ⟨[⟨"p1", "Widget", "Acme", 6, 20, 15, 5⟩], [], []⟩
        "wholesale" "p1" "Widget" 10 6 3 30 none).2.sales = [] ++ [s] ∧
      s.sale_type = "wholesale" ∧ s.customer_name = none :=
  claim_C9_wholesale_null_customer_amended
    ⟨[⟨"p1", "Widget", "Acme", 6, 20, 15, 5⟩], [], []⟩
    "p1" "Widget" 10 6 3 30 (by norm_num)

/-- **C10.** `add_sale` does not require a positive quantity: against
any stored well-formed product, a call with quantity 0 and paid_amount 0
succeeds, persists a Sale row with total = profit = due_amount = 0, and
leaves the product row unchanged — while `transfer_inventory` rejects
every non-positive quantity. -/
theorem claim_C10_zero_quantity_sale (db : DB) (st pid pn : String)
    (sp cp : ℚ) (cn : Option String) (p : Product)
    (hp : get_product_by_id db pid = some p) (hwf : ProductWF p) :
    (∃ db', add_sale db st pid pn sp cp 0 0 cn = (.ok (), db') ∧
      db'.sales = db.sales ++ [mkSale st pid pn sp cp 0 0 cn] ∧
      (mkSale st pid pn sp cp 0 0 cn).total = 0 ∧
      (mkSale st pid pn sp cp 0 0 cn).profit = 0 ∧
      (mkSale st pid pn sp cp 0 0 cn).due_amount = 0 ∧
      get_product_by_id db' pid = some p) ∧
    (∀ f t q db'', q ≤ 0 → transfer_inventory db pid f t q ≠ .ok db'') := by
  obtain ⟨hn1, hn2, hc1, hc2, hcp, hinv⟩ := hwf
  have hntrim : pyStrip p.name ≠ "" := by rw [hn1]; exact hn2
  have hctrim : pyStrip p.company ≠ "" := by rw [hc1]; exact hc2
  constructor
  · have hp1 : get_product_by_id
        { db with sales := db.sales ++ [mkSale st pid pn sp cp 0 0 cn] } pid =
        some p := hp
    have hupd := @update_product_ok_of_valid
      { db with sales := db.sales ++ [mkSale st pid pn sp cp 0 0 cn] }
      pid p.name p.company p.cost_price
      (p.quantity - 0) p.warehouse_quantity (p.store_quantity - 0) p
      hp1 hcp hntrim hctrim
      (by rw [sub_zero]; exact hinv.2.1) hinv.2.2.1
      (by rw [sub_zero]; exact hinv.2.2.2)
      (by rw [sub_zero, sub_zero]; exact hinv.1)
    have hadd : add_sale db st pid pn sp cp 0 0 cn = (.ok (),
        { ({ db with sales := db.sales ++ [mkSale st pid pn sp cp 0 0 cn] } : DB) with
          products := ({ db with
              sales := db.sales ++ [mkSale st pid pn sp cp 0 0 cn] } : DB).products.map
            (updRow pid p.name p.company p.cost_price (p.quantity - 0)
              p.warehouse_quantity (p.store_quantity - 0)) }) := by
      unfold add_sale
      dsimp only
      rw [if_neg (by norm_num)]
      rw [hp1]
      dsimp only
      rw [if_neg (not_lt.mpr hinv.2.2.2), hupd]
    have hlast : get_product_by_id
        { ({ db with sales := db.sales ++ [mkSale st pid pn sp cp 0 0 cn] } : DB) with
          products := ({ db with
              sales := db.sales ++ [mkSale st pid pn sp cp 0 0 cn] } : DB).products.map
            (updRow pid p.name p.company p.cost_price (p.quantity - 0)
              p.warehouse_quantity (p.store_quantity - 0)) } pid = some p := by
      have hlk := update_product_ok_lookup hp1 hupd
      rw [hlk]
      simp only [Option.getD_some, sub_zero, hn1, hc1]
    exact ⟨_, hadd, rfl, by norm_num [mkSale], by norm_num [mkSale],
      by norm_num [mkSale], hlast⟩
  · intro f t q db'' hq0
    unfold transfer_inventory
    rw [if_pos hq0]
    simp

/-- Witness for C10: a zero-quantity, zero-paid retail sale against the
concrete product leaves it at 20/15/5 and records an all-zero Sale. -/
theorem claim_C10_zero_quantity_sale_witness :
    (∃ db', add_sale ⟨[⟨"p1", "Widget", "Acme", 6, 20, 15, 5⟩], [], []⟩
        "retail" "p1" "Widget" 10 6 0 0 none = (.ok (), db') ∧
      db'.sales = [] ++ [mkSale "retail" "p1" "Widget" 10 6 0 0 none] ∧
      (mkSale "retail" "p1" "Widget" 10 6 0 0 none).total = 0 ∧
      (mkSale "retail" "p1" "Widget" 10 6 0 0 none).profit = 0 ∧
      (mkSale "retail" "p1" "Widget" 10 6 0 0 none).due_amount = 0 ∧
      get_product_by_id db' "p1" = some ⟨"p1", "Widget", "Acme", 6, 20, 15, 5⟩) ∧
    (∀ f t q db'', q ≤ 0 →
      transfer_inventory ⟨[⟨"p1", "Widget", "Acme", 6, 20, 15, 5⟩], [], []⟩
        "p1" f t q ≠ .ok db'') :=
  claim_C10_zero_quantity_sale
    ⟨[⟨"p1", "Widget", "Acme", 6, 20, 15, 5⟩], [], []⟩
    "retail" "p1" "Widget" 10 6 none
    ⟨"p1", "Widget", "Acme", 6, 20, 15, 5⟩
    (by decide) (by decide)

/-- **C1.** The code violates the claim: a sale exceeding the available
store stock fails, and the product table is untouched, but the Sale row
has already been inserted and committed before the stock check, so it
survives the failure — the call is not a no-op on the Sale table. -/
theorem claim_C1_failed_sale_commits_row :
    add_sale ⟨[⟨"p1", "Widget", "Acme", 6, 3, 0, 3⟩], [], []⟩
        "retail" "p1" "Widget" 10 6 5 0 none =
      (.error "Not enough stock in store",
        ⟨[⟨"p1", "Widget", "Acme", 6, 3, 0, 3⟩],
         [⟨"retail", none, "p1", "Widget", 10, 6, 5, 50, 20, 0, 50⟩], []⟩) ∧
    add_sale ⟨[], [], []⟩ "retail" "p9" "Ghost" 10 6 1 0 none =
      (.error ("Product with ID " ++ "p9" ++ " not found"),
        ⟨[], [⟨"retail", none, "p9", "Ghost", 10, 6, 1, 10, 4, 0, 10⟩], []⟩) := by
  constructor
  · norm_num [add_sale, mkSale, get_product_by_id, pyStrip]
  · norm_num [add_sale, mkSale, get_product_by_id, pyStrip]

/-- **C4.** The code violates the claim: on a pre-migration database
(warehouse/store columns absent) with a positive-quantity row, the first
run of `_add_warehouse_store_columns` only adds the columns — the
backfill is guarded by the column list read before the ALTERs, so it is
skipped — and the second run performs the 50/50 backfill, changing data:
the second run is not a no-op. -/
theorem claim_C4_second_migration_run_changes_data :
    _add_warehouse_store_columns ⟨false, [⟨5, 0, 0⟩]⟩ =
      ⟨true, [⟨5, 0, 0⟩]⟩ ∧
    _add_warehouse_store_columns (_add_warehouse_store_columns
        ⟨false, [⟨5, 0, 0⟩]⟩) =
      ⟨true, [⟨5, 2, 3⟩]⟩ ∧
    _add_warehouse_store_columns (_add_warehouse_store_columns
        ⟨false, [⟨5, 0, 0⟩]⟩) ≠
      _add_warehouse_store_columns ⟨false, [⟨5, 0, 0⟩]⟩ := by
  decide

end ShopManagement
